import Mathlib

/-!
Verification of the Bron backend (Agent Orchestration & Safety Pipeline).

Shallow embedding of the Python sources under `server/app`:
Python strings are `List Char`, SQL tables are Lean lists, timestamps are
integers, and the LLM provider / HTTP layer are oracles passed as explicit
arguments.  Each definition mirrors one Python function and is named after it.
-/

namespace Bron

/-- Python strings are modelled as lists of characters. -/
abbrev Str := List Char

/-- Python `str.lower()` (ASCII inputs). -/
def lowerStr (s : Str) : Str := s.map Char.toLower

/-- Python substring containment `needle in hay`. -/
def containsSub (needle : Str) : Str → Bool
  | [] => needle.isEmpty
  | c :: rest => needle.isPrefixOf (c :: rest) || containsSub needle rest

/-- Truthiness of an optional string in Python (`None` and `""` are falsy). -/
def truthyStr : Option Str → Bool
  | some s => !s.isEmpty
  | none => false

/-! ## Safety module (`app/services/safety.py`) -/

/-- Risk level of an action (`RiskLevel`). -/
inductive RiskLevel
  | safe
  | low
  | medium
  | high
  | blocked
deriving DecidableEq, Repr

/-- Numeric comparison value of a risk level (`SafetyGuard._risk_level_value`). -/
def riskValue : RiskLevel → Nat
  | .safe => 0
  | .low => 1
  | .medium => 2
  | .high => 3
  | .blocked => 4

/-- Keywords of `RISK_KEYWORDS[RiskLevel.HIGH]`. -/
def riskKeywordsHigh : List Str :=
  ["delete", "remove", "erase", "destroy", "purge",
   "send email", "send message", "post to", "publish",
   "pay", "transfer money", "purchase", "buy", "charge",
   "cancel subscription", "terminate", "unsubscribe",
   "share password", "share secret", "expose"].map String.toList

/-- Keywords of `RISK_KEYWORDS[RiskLevel.MEDIUM]`. -/
def riskKeywordsMedium : List Str :=
  ["update", "modify", "change", "edit",
   "move", "rename", "archive",
   "schedule", "book", "reserve",
   "reply", "respond to"].map String.toList

/-- Keywords of `RISK_KEYWORDS[RiskLevel.LOW]`. -/
def riskKeywordsLow : List Str :=
  ["draft", "prepare", "create",
   "save", "store",
   "read", "fetch", "get"].map String.toList

/-- Python regex `\w` on ASCII text: letters, digits and underscore. -/
def isWordChar (c : Char) : Bool := c.isAlphanum || c == '_'

/-- Python regex `\s` on ASCII text. -/
def pySpace (c : Char) : Bool :=
  c == ' ' || c == '\t' || c == '\n' || c == '\r' ||
  c == Char.ofNat 11 || c == Char.ofNat 12

/-- Strips a literal from the front of a string, or fails. -/
def dropPrefixO : Str → Str → Option Str
  | [], s => some s
  | _ :: _, [] => none
  | a :: ps, b :: ss => if a == b then dropPrefixO ps ss else none

/-- Regex `\s+` with maximal munch: requires at least one space, consumes the run. -/
def spaces1 : Str → Option Str
  | c :: rest => if pySpace c then some (rest.dropWhile pySpace) else none
  | [] => none

/-- Regex `\w+` used as a final atom: at least one word character here. -/
def headWord : Str → Bool
  | c :: _ => isWordChar c
  | [] => false

/-- Matches a pattern of shape `lit\s+(alt1|alt2|...)` at the current position.
All alternatives start with non-space characters, so greedy `\s+` is exact. -/
def litSpAltAt (lit : Str) (alts : List Str) (s : Str) : Bool :=
  match dropPrefixO lit s with
  | some r1 =>
    match spaces1 r1 with
    | some r2 => alts.any fun a => a.isPrefixOf r2
    | none => false
  | none => false

/-- Matches a pattern of shape `lit\s+\w+` at the current position. -/
def litSpWordAt (lit : Str) (s : Str) : Bool :=
  match dropPrefixO lit s with
  | some r1 =>
    match spaces1 r1 with
    | some r2 => headWord r2
    | none => false
  | none => false

/-- Python `re.search`: tries the position matcher at every index. -/
def searchPos (p : Str → Bool) : Str → Bool
  | [] => p []
  | c :: rest => p (c :: rest) || searchPos p rest

/-- One `BLOCKED_ACTIONS` regex matches somewhere in the lower-cased message:
`delete\s+(all|every|entire)`, `rm\s+-rf`, `format\s+\w+`,
`drop\s+(table|database)`, `share\s+(password|secret|key|token)`,
`expose\s+(credentials|secrets)`. -/
def blockedActionMatch (ml : Str) : Bool :=
  searchPos (litSpAltAt "delete".toList (["all", "every", "entire"].map String.toList)) ml ||
  searchPos (litSpAltAt "rm".toList ["-rf".toList]) ml ||
  searchPos (litSpWordAt "format".toList) ml ||
  searchPos (litSpAltAt "drop".toList (["table", "database"].map String.toList)) ml ||
  searchPos (litSpAltAt "share".toList (["password", "secret", "key", "token"].map String.toList)) ml ||
  searchPos (litSpAltAt "expose".toList (["credentials", "secrets"].map String.toList)) ml

/-- Regex `\b` before the match: previous character absent or not a word character. -/
def boundaryB : Option Char → Bool
  | none => true
  | some c => !isWordChar c

/-- Regex `\b` after the match: next character absent or not a word character. -/
def boundaryA : Str → Bool
  | [] => true
  | c :: _ => !isWordChar c

/-- Consumes exactly `n` digits (`\d{n}`). -/
def takeDigitsN : Nat → Str → Option Str
  | 0, s => some s
  | _ + 1, [] => none
  | n + 1, c :: rest => if c.isDigit then takeDigitsN n rest else none

/-- Length matcher for `\b\d{16}\b` (credit card numbers) at a position. -/
def cardLenAt (prev : Option Char) (s : Str) : Option Nat :=
  if boundaryB prev then
    match takeDigitsN 16 s with
    | some rest => if boundaryA rest then some 16 else none
    | none => none
  else none

/-- Length matcher for `\b\d{3}-\d{2}-\d{4}\b` (SSNs) at a position. -/
def ssnLenAt (prev : Option Char) (s : Str) : Option Nat :=
  if boundaryB prev then
    match takeDigitsN 3 s with
    | some ('-' :: r2) =>
      match takeDigitsN 2 r2 with
      | some ('-' :: r4) =>
        match takeDigitsN 4 r4 with
        | some r5 => if boundaryA r5 then some 11 else none
        | none => none
      | _ => none
    | _ => none
  else none

/-- Length of the common tail `\s*[:=]\s*\S+` with greedy munch (the character
classes are disjoint, so greediness is exact). -/
def kvTailLen (s : Str) : Option Nat :=
  let sp1 := s.takeWhile pySpace
  match s.dropWhile pySpace with
  | c :: r2 =>
    if c == ':' || c == '=' then
      let sp2 := r2.takeWhile pySpace
      let tok := (r2.dropWhile pySpace).takeWhile fun d => !pySpace d
      if tok.isEmpty then none else some (sp1.length + 1 + sp2.length + tok.length)
    else none
  | [] => none

/-- Length matcher for `\bpassword\s*[:=]\s*\S+` at a position. -/
def passwordLenAt (prev : Option Char) (s : Str) : Option Nat :=
  if boundaryB prev then
    match dropPrefixO "password".toList s with
    | some r1 => (kvTailLen r1).map (8 + ·)
    | none => none
  else none

/-- Length of `[_-]?key` with greedy optional (both parses never succeed together). -/
def optHyphKeyLen (s : Str) : Option Nat :=
  match s with
  | c :: rest =>
    if (c == '_' || c == '-') && "key".toList.isPrefixOf rest then some 4
    else if "key".toList.isPrefixOf (c :: rest) then some 3
    else none
  | [] => none

/-- Length of the alternation `api[_-]?key|secret[_-]?key`. -/
def keyAltLen (s : Str) : Option Nat :=
  match dropPrefixO "api".toList s with
  | some r1 => (optHyphKeyLen r1).map (3 + ·)
  | none =>
    match dropPrefixO "secret".toList s with
    | some r1 => (optHyphKeyLen r1).map (6 + ·)
    | none => none

/-- Length matcher for `\b(api[_-]?key|secret[_-]?key)\s*[:=]\s*\S+` at a position. -/
def apiKeyLenAt (prev : Option Char) (s : Str) : Option Nat :=
  if boundaryB prev then
    match keyAltLen s with
    | some n => (kvTailLen (s.drop n)).map (n + ·)
    | none => none
  else none

/-- Scans all positions with a length matcher, tracking the previous character
for the word-boundary checks. -/
def searchLenB (m : Option Char → Str → Option Nat) : Option Char → Str → Bool
  | prev, [] => (m prev []).isSome
  | prev, c :: rest => (m prev (c :: rest)).isSome || searchLenB m (some c) rest

/-- Some `SENSITIVE_PATTERNS` regex matches somewhere in the message
(card number, SSN, inline password, inline API key). -/
def sensitiveMatch (s : Str) : Bool :=
  searchLenB cardLenAt none s || searchLenB ssnLenAt none s ||
  searchLenB passwordLenAt none s || searchLenB apiKeyLenAt none s

/-- One keyword step of the `analyze_message` loop body: record the flag and
keep the higher of the current level and the keyword category. -/
def scanStep (ml : Str) (lvl : RiskLevel) (acc : RiskLevel × List Str) (kw : Str) :
    RiskLevel × List Str :=
  if containsSub kw ml then
    if riskValue lvl > riskValue acc.1 then (lvl, acc.2 ++ [kw]) else (acc.1, acc.2 ++ [kw])
  else acc

/-- The inner `for keyword in RISK_KEYWORDS[risk_level]` loop of `analyze_message`. -/
def scanLevel (ml : Str) (lvl : RiskLevel) (kws : List Str) (acc : RiskLevel × List Str) :
    RiskLevel × List Str :=
  kws.foldl (scanStep ml lvl) acc

/-- `SafetyGuard.analyze_message`: blocked patterns first, then sensitive data,
then the highest matching keyword category (`HIGH`, `MEDIUM`, `LOW` in that
order).  The second component models the `flagged` list as the matched
keywords; the decorative f-string wrappers of the Python flags are omitted. -/
def analyze_message (message : Str) : RiskLevel × List Str :=
  let ml := lowerStr message
  if blockedActionMatch ml then (.blocked, ["Blocked pattern".toList])
  else if sensitiveMatch message then (.blocked, ["Sensitive data detected".toList])
  else scanLevel ml .low riskKeywordsLow
        (scanLevel ml .medium riskKeywordsMedium
          (scanLevel ml .high riskKeywordsHigh (.safe, [])))

/-- The replacement marker used by `sanitize_output`. -/
def REDACTED : Str := "[REDACTED]".toList

/-- Keeps the original previous character across a consumed span. -/
def lastOf (l : Str) (dflt : Option Char) : Option Char :=
  match l.getLast? with
  | some c => some c
  | none => dflt

/-- Python `re.sub(pattern, "[REDACTED]", s)`: leftmost non-overlapping
matches, scanning the original string.  Fuel is the string length; every step
consumes at least one character because no sensitive pattern matches the empty
string. -/
def subGo (m : Option Char → Str → Option Nat) : Nat → Option Char → Str → Str
  | 0, _, s => s
  | _ + 1, _, [] => []
  | fuel + 1, prev, c :: rest =>
    match m prev (c :: rest) with
    | some n =>
      REDACTED ++ subGo m fuel (lastOf ((c :: rest).take n) prev) ((c :: rest).drop n)
    | none => c :: subGo m fuel (some c) rest

/-- `re.sub` of one sensitive pattern over a whole string. -/
def reSub (m : Option Char → Str → Option Nat) (s : Str) : Str :=
  subGo m s.length none s

/-- `SafetyGuard.sanitize_output`: substitutes each `SENSITIVE_PATTERNS` regex
in order (card, SSN, password, API key), each pass running on the result of
the previous one. -/
def sanitize_output (text : Str) : Str :=
  reSub apiKeyLenAt (reSub passwordLenAt (reSub ssnLenAt (reSub cardLenAt text)))

/-! ## Data model (`app/models`) -/

/-- `TaskState` from `app/models/task.py`. -/
inductive TaskState
  | draft
  | needs_info
  | planned
  | ready
  | executing
  | waiting
  | done
  | failed
deriving DecidableEq, Repr

/-- The `.value` string of a `TaskState`. -/
def stateValue (s : TaskState) : Str :=
  (match s with
   | .draft => "draft"
   | .needs_info => "needs_info"
   | .planned => "planned"
   | .ready => "ready"
   | .executing => "executing"
   | .waiting => "waiting"
   | .done => "done"
   | .failed => "failed").toList

/-- `TaskCategory` from `app/models/task.py`. -/
inductive TaskCategory
  | admin
  | creative
  | school
  | personal
  | work
  | other
deriving DecidableEq, Repr

/-- `BronStatus` from `app/models/bron.py`. -/
inductive BronStatus
  | idle
  | working
  | waiting
  | needs_info
  | ready
  | completed
deriving DecidableEq, Repr

/-- `MessageRole` from `app/models/chat.py`. -/
inductive MessageRole
  | user
  | assistant
  | system
deriving DecidableEq, Repr

/-- `AgentIntent` from `app/services/claude.py`. -/
inductive AgentIntent
  | respond
  | request_info
  | update_task
  | execute
  | complete
  | error
deriving DecidableEq, Repr

/-- `UIRecipeSpec` (pydantic) from `app/services/claude.py`.  JSON field
descriptors are modelled as opaque strings. -/
structure UIRecipeSpec where
  component_type : Str
  title : Option Str := none
  description : Option Str := none
  schema_fields : List (Str × Str) := []
  required_fields : List Str := []
  style_preset : Option Str := none
deriving DecidableEq, Repr

/-- `TaskStateUpdate` (pydantic) from `app/services/claude.py`.  The source
carries `new_state` as an optional string later coerced with `TaskState(...)`;
it is modelled as an already-coerced optional state (`None` and `""` map to
`none`).  `progress` is a float used only as a stored literal, modelled as a
rational. -/
structure TaskStateUpdate where
  new_state : Option TaskState := none
  progress : Option ℚ := none
  next_action : Option Str := none
  waiting_on : Option Str := none
deriving DecidableEq, Repr

/-- `AgentResponse` (pydantic) from `app/services/claude.py`. -/
structure AgentResponse where
  intent : AgentIntent
  message : Str
  ui_recipe : Option UIRecipeSpec := none
  task_update : Option TaskStateUpdate := none
deriving DecidableEq, Repr

/-- `Task` row from `app/models/task.py` (steps and relationships that the
orchestrator never touches are omitted). -/
structure Task where
  id : Nat
  title : Str
  description : Option Str := none
  state : TaskState := .draft
  category : TaskCategory := .other
  progress : ℚ := 0
  next_action : Option Str := none
  waiting_on : Option Str := none
  bron_id : Nat
deriving DecidableEq, Repr

/-- `BronInstance` row from `app/models/bron.py`. -/
structure BronInstance where
  id : Nat
  name : Str
  status : BronStatus := .idle
  current_task_id : Option Nat := none
deriving DecidableEq, Repr

/-- `ChatMessage` row from `app/models/chat.py`. -/
structure ChatMessage where
  id : Nat
  bron_id : Nat
  role : MessageRole
  content : Str
  task_state_update : Option Str := none
deriving DecidableEq, Repr

/-- `UIRecipe` row from `app/models/ui_recipe.py` (style omitted; submitted
data modelled as a key/value list). -/
structure UIRecipe where
  id : Nat
  component_type : Str
  title : Option Str := none
  description : Option Str := none
  schema : List (Str × Str) := []
  required_fields : List Str := []
  submitted_data : Option (List (Str × Str)) := none
  is_submitted : Bool := false
  task_id : Option Nat := none
  message_id : Option Nat := none
deriving DecidableEq, Repr

/-! ## Task Orchestrator (`app/services/orchestrator.py`) -/

/-- The explicit task-state delta block of `_handle_agent_response`
(source lines 409-417): each field is applied only when truthy
(`progress` compares against `None`). -/
def applyTaskUpdate (t : Task) : Option TaskStateUpdate → Task
  | none => t
  | some upd =>
    let t := match upd.new_state with
      | some st => { t with state := st }
      | none => t
    let t := match upd.progress with
      | some p => { t with progress := p }
      | none => t
    let t := if truthyStr upd.next_action then { t with next_action := upd.next_action } else t
    if truthyStr upd.waiting_on then { t with waiting_on := upd.waiting_on } else t

/-- Observable outcome of one `_handle_agent_response` turn: the new agent
status, the updated task, the persisted assistant message content and
`task_state_update` field, and the UI Recipe persisted (if any). -/
structure TurnResult where
  bronStatus : BronStatus
  task : Option Task
  assistantContent : Str
  taskStateUpdateField : Option Str
  createdRecipe : Option UIRecipeSpec
deriving DecidableEq, Repr

/-- `TaskOrchestrator._handle_agent_response`: applies the explicit task-state
delta, then the intent-driven transition, then persists one assistant message
(content is `response.message`, unmodified) and the UI Recipe of the response. -/
def handle_agent_response (bron : BronInstance) (task : Option Task)
    (response : AgentResponse) : TurnResult :=
  let t1 : Option Task := task.map fun t => applyTaskUpdate t response.task_update
  let step : BronStatus × Option Task :=
    match response.intent with
    | .complete => (BronStatus.idle, t1.map fun t => { t with state := .done, progress := 1 })
    | .request_info =>
      (BronStatus.needs_info, t1.map fun t =>
        let t := { t with state := TaskState.needs_info }
        match response.ui_recipe with
        | some spec => if truthyStr spec.title then { t with waiting_on := spec.title } else t
        | none => t)
    | .execute => (BronStatus.ready, t1.map fun t => { t with state := .ready })
    | .error => (bron.status, t1.map fun t => { t with state := .failed })
    | _ => (bron.status, t1)
  { bronStatus := step.1
    task := step.2
    assistantContent := response.message
    taskStateUpdateField := step.2.map fun t => stateValue t.state
    createdRecipe := response.ui_recipe }

/-- An apostrophe character, used inside two of the filler phrases. -/
def apos : Char := Char.ofNat 39

/-- The `filler_phrases` list of `_generate_task_title`, in source order. -/
def fillerPhrases : List Str :=
  ["can you ", "could you ", "please ", "i need to ", "i want to ",
   "help me "].map String.toList ++
  ["i".toList ++ [apos] ++ "d like to ".toList] ++
  ["i would like to "].map String.toList ++
  ["let".toList ++ [apos] ++ "s ".toList] ++
  ["i need ", "i want ", "help ", "can ", "could "].map String.toList

/-- The `skip_words` set of `_generate_task_title`. -/
def skipWords : List Str :=
  ["a", "an", "the", "my", "your", "to", "for", "with", "and",
   "or", "in", "on", "at", "of", "that", "this", "it", "is",
   "me", "some", "about", "up", "out", "so", "what", "how"].map String.toList

/-- Python `str.strip()` on whitespace. -/
def stripWs (s : Str) : Str :=
  ((s.dropWhile pySpace).reverse.dropWhile pySpace).reverse

/-- Python `str.rstrip` over the four punctuation characters `?`, `!`, `.`, `,`. -/
def rstripPunct (s : Str) : Str :=
  (s.reverse.dropWhile fun c => c == '?' || c == '!' || c == '.' || c == ',').reverse

/-- Worker for `splitWs`, accumulating the current word reversed. -/
def splitWsGo (cur : Str) : Str → List Str
  | [] => if cur.isEmpty then [] else [cur.reverse]
  | c :: rest =>
    if pySpace c then
      if cur.isEmpty then splitWsGo [] rest else cur.reverse :: splitWsGo [] rest
    else splitWsGo (c :: cur) rest

/-- Python `str.split()` with no separator: splits on whitespace runs. -/
def splitWs (s : Str) : List Str := splitWsGo [] s

/-- Python `str.capitalize()`: first character upper-cased, the rest lowered. -/
def capitalizeWord : Str → Str
  | [] => []
  | c :: rest => c.toUpper :: rest.map Char.toLower

/-- Python str.join with a single-space separator. -/
def joinSpace (ws : List Str) : Str := (ws.intersperse [' ']).flatten

/-- `TaskOrchestrator._generate_task_title`. -/
def generate_task_title (message : Str) : Str :=
  let text := lowerStr (stripWs message)
  let text := fillerPhrases.foldl
    (fun t phrase => if phrase.isPrefixOf t then t.drop phrase.length else t) text
  let text := rstripPunct text
  let words := splitWs text
  let keyWords := (words.filter fun w => !(skipWords.contains w)).take 3
  let keyWords := if keyWords.isEmpty then words.take 3 else keyWords
  let title := joinSpace (keyWords.map capitalizeWord)
  if title.isEmpty then "New Task".toList else title

/-- `TaskOrchestrator._detect_category`. -/
def detect_category (text : Str) : TaskCategory :=
  let tl := lowerStr text
  if (["email", "calendar", "meeting", "schedule"].map String.toList).any
      (fun w => containsSub w tl) then .admin
  else if (["write", "design", "create", "draw"].map String.toList).any
      (fun w => containsSub w tl) then .creative
  else if (["homework", "study", "class", "exam"].map String.toList).any
      (fun w => containsSub w tl) then .school
  else if (["work", "project", "deadline", "report"].map String.toList).any
      (fun w => containsSub w tl) then .work
  else .personal

/-- The default agent names replaced on first task creation (`None` cannot
occur: the column is non-nullable). -/
def defaultNames : List Str := ["New Bron", "Bron", ""].map String.toList

/-- Observable outcome of `create_task_from_message`. -/
structure CreateTaskResult where
  task : Task
  bron : BronInstance
  reply : ChatMessage
  createdRecipe : Option UIRecipeSpec
deriving DecidableEq, Repr

/-- `TaskOrchestrator.create_task_from_message`: the LLM reply is an oracle
argument (`agentResponse`), fresh row ids are arguments.  The new task is
created in `draft`, advanced to `planned`, and moved to `needs_info` when the
reply carries a UI Recipe. -/
def create_task_from_message (bron : BronInstance) (messageContent : Str)
    (agentResponse : AgentResponse) (newTaskId newMsgId : Nat) : CreateTaskResult :=
  let taskTitle := generate_task_title messageContent
  let task : Task :=
    { id := newTaskId, title := taskTitle, description := some messageContent,
      state := .draft, category := detect_category messageContent,
      progress := 0, bron_id := bron.id }
  let bron := { bron with
    current_task_id := some newTaskId
    status := BronStatus.working
    name := if defaultNames.contains bron.name then taskTitle else bron.name }
  let task := { task with state := TaskState.planned }
  let task := match agentResponse.ui_recipe with
    | some spec =>
      let t := { task with state := TaskState.needs_info }
      if truthyStr spec.title then { t with waiting_on := spec.title } else t
    | none => task
  let reply : ChatMessage :=
    { id := newMsgId, bron_id := bron.id, role := .assistant,
      content := agentResponse.message,
      task_state_update := some (stateValue task.state) }
  { task := task, bron := bron, reply := reply, createdRecipe := agentResponse.ui_recipe }

/-- The persisted tables the submission paths touch. -/
structure OrchState where
  brons : List BronInstance
  tasks : List Task
  messages : List ChatMessage
  recipes : List UIRecipe
deriving DecidableEq, Repr

/-- Failure modes of `TaskOrchestrator.handle_ui_recipe_submission`
(`ValueError`s, plus the crash when the Bron row is missing). -/
inductive SubmissionError
  | recipeNotFound
  | noBron
  | bronNotFound
deriving DecidableEq, Repr

/-- Successful submission outcome: the assistant reply and the merged
submitted data handed to the model. -/
structure SubmissionOk where
  reply : ChatMessage
  mergedData : List (Str × Str)
deriving DecidableEq, Repr

/-- Python `dict.update`: later keys overwrite earlier ones in place. -/
def dictUpdate (d e : List (Str × Str)) : List (Str × Str) :=
  e.foldl
    (fun acc kv =>
      if acc.any (fun p => p.1 == kv.1) then
        acc.map fun p => if p.1 == kv.1 then kv else p
      else acc ++ [kv])
    d

/-- Primary-key lookup of a UI Recipe. -/
def findRecipe (st : OrchState) (rid : Nat) : Option UIRecipe :=
  st.recipes.find? fun r => r.id == rid

/-- `TaskOrchestrator.handle_ui_recipe_submission`: marks the recipe submitted
(with no already-submitted check, source lines 228-230), resolves the owning
agent, merges all previously submitted data for the task, runs the follow-up
model turn (`oracle`) and commits the resulting transition.  Returns the
result together with the session state (mutations before a raise stay in the
session). -/
def handle_ui_recipe_submission (st : OrchState) (recipeId : Nat)
    (submittedData : List (Str × Str)) (oracle : AgentResponse)
    (newMsgId newRecipeId : Nat) : Except SubmissionError SubmissionOk × OrchState :=
  match findRecipe st recipeId with
  | none => (.error .recipeNotFound, st)
  | some recipe =>
    let recipe1 : UIRecipe := { recipe with submitted_data := some submittedData, is_submitted := true }
    let st1 : OrchState :=
      { st with recipes := st.recipes.map fun r => if r.id == recipeId then recipe1 else r }
    let task : Option Task := recipe.task_id.bind fun tid => st.tasks.find? fun t => t.id == tid
    let bronId : Option Nat := match recipe.message_id.bind
        (fun mid => st.messages.find? fun m => m.id == mid) with
      | some msg => some msg.bron_id
      | none => task.map fun t => t.bron_id
    match bronId with
    | none => (.error .noBron, st1)
    | some bronId =>
      let allData : List (Str × Str) := match task with
        | some t =>
          (st1.recipes.filter fun r => r.task_id == some t.id && r.is_submitted).foldl
            (fun acc r =>
              match r.submitted_data with
              | some d => dictUpdate acc d
              | none => acc)
            []
        | none => []
      let allData : List (Str × Str) := dictUpdate allData submittedData
      match st1.brons.find? fun b => b.id == bronId with
      | none => (.error .bronNotFound, st1)
      | some bron =>
        let tr : TurnResult := handle_agent_response bron task oracle
        let st2 : OrchState := { st1 with
          brons := st1.brons.map fun b => if b.id == bron.id then { b with status := tr.bronStatus } else b
          tasks := match tr.task with
            | some t2 => st1.tasks.map fun t => if t.id == t2.id then t2 else t
            | none => st1.tasks }
        let msg : ChatMessage :=
          { id := newMsgId, bron_id := bron.id, role := .assistant,
            content := tr.assistantContent, task_state_update := tr.taskStateUpdateField }
        let st3 : OrchState := { st2 with messages := st2.messages ++ [msg] }
        let st4 : OrchState := match tr.createdRecipe with
          | some spec =>
            { st3 with recipes := st3.recipes ++ [{
                id := newRecipeId, component_type := spec.component_type,
                title := spec.title, description := spec.description,
                schema := spec.schema_fields, required_fields := spec.required_fields,
                task_id := task.map fun t => t.id, message_id := some newMsgId }] }
          | none => st3
        (.ok { reply := msg, mergedData := allData }, st4)

/-- HTTP-level failures of the `/ui-recipe/submit` endpoint. -/
inductive HttpError
  | notFound
  | alreadySubmitted
  | noBron
deriving DecidableEq, Repr

/-- `submit_ui_recipe` endpoint (`app/api/endpoints/chat.py`): rejects an
unknown or already-submitted recipe before calling the orchestrator; a raised
`HTTPException` rolls the session back (state unchanged), while a caught
orchestrator failure keeps the session mutations and appends a fallback
assistant message. -/
def submit_ui_recipe (st : OrchState) (recipeId : Nat) (data : List (Str × Str))
    (oracle : AgentResponse) (newMsgId newRecipeId fallbackMsgId : Nat) :
    Except HttpError ChatMessage × OrchState :=
  match findRecipe st recipeId with
  | none => (.error .notFound, st)
  | some recipe =>
    let bronId : Option Nat := match recipe.message_id.bind
        (fun mid => st.messages.find? fun m => m.id == mid) with
      | some msg => some msg.bron_id
      | none =>
        (recipe.task_id.bind fun tid => st.tasks.find? fun t => t.id == tid).map fun t => t.bron_id
    if recipe.is_submitted then (.error .alreadySubmitted, st)
    else
      match handle_ui_recipe_submission st recipeId data oracle newMsgId newRecipeId with
      | (.ok res, st1) => (.ok res.reply, st1)
      | (.error _, st1) =>
        match bronId with
        | none => (.error .noBron, st)
        | some b =>
          let msg : ChatMessage :=
            { id := fallbackMsgId, bron_id := b, role := .assistant,
              content := ("I received your information but encountered an issue " ++
                "processing it. Let me try again.").toList }
          (.ok msg, { st1 with messages := st1.messages ++ [msg] })

/-! ## Credential store and API Executor (`app/services/api_executor.py`) -/

/-- `ServiceProvider` from `app/models/credential.py`. -/
inductive ServiceProvider
  | google | gmail | google_calendar | google_drive
  | apple | icloud
  | microsoft | outlook
  | twitter | facebook | instagram | linkedin
  | github | gitlab
  | slack | discord | zoom
  | notion | todoist | trello | asana
  | stripe | plaid | venmo
  | booking | airbnb | uber | lyft
  | doordash | ubereats | grubhub
  | openai | anthropic
  | custom
deriving DecidableEq, Repr

/-- `CredentialType` from `app/models/credential.py`. -/
inductive CredentialType
  | oauth_token
  | api_key
  | username_password
  | bearer_token
  | cookie
deriving DecidableEq, Repr

/-- `Credential` row from `app/models/credential.py`; timestamps are integer
seconds, `updated_at` comes from the `TimestampMixin`. -/
structure Credential where
  id : Nat
  provider : ServiceProvider
  credential_type : CredentialType
  access_token : Option Str := none
  refresh_token : Option Str := none
  token_expires_at : Option Int := none
  api_key : Option Str := none
  scopes : Option (List Str) := none
  is_valid : Bool := true
  last_used_at : Option Int := none
  bron_id : Nat
  updated_at : Int := 0
deriving DecidableEq, Repr

/-- `Credential.needs_refresh`: within 5 minutes (300 s) of expiry. -/
def needs_refresh (c : Credential) (now : Int) : Bool :=
  match c.token_expires_at with
  | none => false
  | some te => now > te - 300

/-- Insertion step for the `ORDER BY updated_at DESC` sort. -/
def insertByUpdatedDesc (c : Credential) : List Credential → List Credential
  | [] => [c]
  | d :: ds => if d.updated_at < c.updated_at then c :: d :: ds else d :: insertByUpdatedDesc c ds

/-- `ORDER BY updated_at DESC` (ties in unspecified order, as in SQL). -/
def sortByUpdatedDesc : List Credential → List Credential
  | [] => []
  | c :: cs => insertByUpdatedDesc c (sortByUpdatedDesc cs)

/-- SQLAlchemy errors surfaced by `scalar_one_or_none`. -/
inductive SqlError
  | multipleResultsFound
deriving DecidableEq, Repr

/-- The `WHERE` clause of `APIExecutor._get_credential`: rows for this agent
and provider with `is_valid == True`. -/
def validCredsFor (db : List Credential) (bronId : Nat) (provider : ServiceProvider) :
    List Credential :=
  db.filter fun c => c.bron_id == bronId && decide (c.provider = provider) && c.is_valid

/-- `APIExecutor._get_credential`: the filtered, sorted query is collapsed by
`scalar_one_or_none`, which raises `MultipleResultsFound` on two or more rows. -/
def get_credential (db : List Credential) (bronId : Nat) (provider : ServiceProvider) :
    Except SqlError (Option Credential) :=
  match sortByUpdatedDesc (validCredsFor db bronId provider) with
  | [] => .ok none
  | [c] => .ok (some c)
  | _ :: _ :: _ => .error .multipleResultsFound

/-- Membership of a `ServiceProvider` value in `KNOWN_APIS`
(`app/services/api_discovery.py`).  The catalog keys that are not
`ServiceProvider` values (hotels_com, amadeus, skyscanner, kiwi, rentalcars,
twilio, openweathermap) are unreachable through an `APIRequest`. -/
def knownApiProvider : ServiceProvider → Bool
  | .gmail | .google_calendar | .google_drive | .booking | .airbnb | .uber | .lyft
  | .stripe | .plaid | .slack | .doordash | .ubereats | .openai => true
  | _ => false

/-- `HTTPMethod` from `app/services/api_executor.py`. -/
inductive HTTPMethod
  | GET
  | POST
  | PUT
  | PATCH
  | DELETE
deriving DecidableEq, Repr

/-- `APIRequest` from `app/services/api_executor.py` (params/body/headers do
not influence the modelled control flow and are omitted). -/
structure APIRequest where
  provider : ServiceProvider
  endpoint : Str
  method : HTTPMethod := .GET
deriving DecidableEq, Repr

/-- Outcome of the underlying HTTP call (`httpx`), supplied as an oracle:
`success` is a non-error status (after `raise_for_status`), `statusError` a
4xx/5xx reply, `transportError` an `httpx.RequestError`. -/
inductive HttpOutcome
  | success (status : Nat) (body : Str)
  | statusError (status : Nat) (body : Str)
  | transportError (msg : Str)
deriving DecidableEq, Repr

/-- The executor error taxonomy (`APIExecutionError` hierarchy, plus the
SQLAlchemy error escaping `_get_credential`). -/
inductive ExecError
  | sqlMultiple
  | authentication
  | rateLimit
  | apiResponse (status : Nat) (body : Str)
  | executionError
deriving DecidableEq, Repr

/-- `APIResponse` from `app/services/api_executor.py` (success case). -/
structure APIResponseM where
  success : Bool := true
  status_code : Nat
  data : Str
deriving DecidableEq, Repr

/-- Outcome of `APIExecutor.execute`: result, credential table after the call,
and whether the HTTP request was attempted at all. -/
structure ExecResult where
  result : Except ExecError APIResponseM
  db : List Credential
  httpAttempted : Bool
deriving Repr

/-- Marks one credential row invalid (the 401 branch). -/
def dbSetInvalid (db : List Credential) (cid : Nat) : List Credential :=
  db.map fun c => if c.id == cid then { c with is_valid := false } else c

/-- Updates `last_used_at` of one credential row (the success branch). -/
def dbSetLastUsed (db : List Credential) (cid : Nat) (now : Int) : List Credential :=
  db.map fun c => if c.id == cid then { c with last_used_at := some now } else c

/-- `APIExecutor._refresh_token` is a logging stub in the source: it returns
the credential unchanged for every provider. -/
def refresh_token_step (c : Credential) : Credential := c

/-- `APIExecutor.execute`: resolves the latest valid credential, fails with
`AuthenticationError` when none exists (before any HTTP), runs the best-effort
refresh stub, checks the provider catalog, then maps the HTTP outcome: success
updates `last_used_at`; 401 invalidates the credential and raises
`AuthenticationError`; 429 raises `RateLimitError`; other statuses raise
`APIResponseError`; transport failures raise `APIExecutionError`. -/
def execute (db : List Credential) (now : Int) (bronId : Nat) (req : APIRequest)
    (http : HttpOutcome) : ExecResult :=
  match get_credential db bronId req.provider with
  | .error _ => { result := .error .sqlMultiple, db := db, httpAttempted := false }
  | .ok none => { result := .error .authentication, db := db, httpAttempted := false }
  | .ok (some credential) =>
    let credential :=
      if needs_refresh credential now && credential.refresh_token.isSome then
        refresh_token_step credential
      else credential
    if knownApiProvider req.provider then
      match http with
      | .success status body =>
        { result := .ok { status_code := status, data := body }
          db := dbSetLastUsed db credential.id now
          httpAttempted := true }
      | .statusError status body =>
        if status == 401 then
          { result := .error .authentication, db := dbSetInvalid db credential.id,
            httpAttempted := true }
        else if status == 429 then
          { result := .error .rateLimit, db := db, httpAttempted := true }
        else
          { result := .error (.apiResponse status body), db := db, httpAttempted := true }
      | .transportError _ => { result := .error .executionError, db := db, httpAttempted := true }
    else { result := .error .executionError, db := db, httpAttempted := false }

/-- `store_oauth_credential`: always constructs and inserts a new row;
`token_expires_at` comes from the truthy (`expires_in` of 0 is falsy) TTL. -/
def store_oauth_credential (db : List Credential) (now : Int) (newId : Nat) (bronId : Nat)
    (provider : ServiceProvider) (accessToken : Str) (refreshToken : Option Str := none)
    (expiresIn : Option Int := none) (scopes : Option (List Str) := none) :
    List Credential × Credential :=
  let expiresAt := match expiresIn with
    | some n => if n ≠ 0 then some (now + n) else none
    | none => none
  let credential : Credential :=
    { id := newId, bron_id := bronId, provider := provider,
      credential_type := .oauth_token, access_token := some accessToken,
      refresh_token := refreshToken, token_expires_at := expiresAt, scopes := scopes,
      is_valid := true, updated_at := now }
  (db ++ [credential], credential)

/-- `store_api_key_credential`: always constructs and inserts a new row. -/
def store_api_key_credential (db : List Credential) (now : Int) (newId : Nat) (bronId : Nat)
    (provider : ServiceProvider) (apiKey : Str) : List Credential × Credential :=
  let credential : Credential :=
    { id := newId, bron_id := bronId, provider := provider,
      credential_type := .api_key, api_key := some apiKey,
      is_valid := true, updated_at := now }
  (db ++ [credential], credential)

/-! ## Stateless fallback retry loop (`app/services/claude.py`) -/

/-- The transient-error test of `_process_with_direct_api` (source lines
777-779): the stringified exception contains `"529"`, `"overloaded"`
(case-insensitively), or `"500"`. -/
def is_transient_error (e : Str) : Bool :=
  containsSub "529".toList e || containsSub "overloaded".toList (lowerStr e) ||
  containsSub "500".toList e

/-- `max_retries` of `_process_with_direct_api`. -/
def max_retries : Nat := 3

/-- The `for attempt in range(max_retries)` loop of `_process_with_direct_api`:
`call` is the provider oracle (indexed by attempt), `sleeps` records the
backoff delays actually awaited (seconds), `remaining` is
`max_retries - attempt`.  The `0` case is the dead `for`-`else` re-raise of
`last_error`. -/
def retryGo {α : Type} (call : Nat → Except Str α) (lastError : Option Str)
    (attempt : Nat) (retryDelay : ℚ) (sleeps : List ℚ) : Nat → Except Str α × List ℚ
  | 0 => (.error (lastError.getD []), sleeps)
  | remaining + 1 =>
    match call attempt with
    | .ok v => (.ok v, sleeps)
    | .error e =>
      if is_transient_error e && decide (0 < remaining) then
        retryGo call (some e) (attempt + 1) (retryDelay * 2) (sleeps ++ [retryDelay]) remaining
      else (.error e, sleeps)

/-- The whole retry block: starts at attempt 0 with a 1-second delay. -/
def direct_api_retry {α : Type} (call : Nat → Except Str α) : Except Str α × List ℚ :=
  retryGo call none 0 1 [] max_retries

/-! ## Spec-side definitions used by refinement-style claims -/

/-- Modelled from the spec: the task state machine edges of §4.1
(Draft to NeedsInfo or Planned, NeedsInfo to Planned, Planned to Ready, Ready
to Executing, Executing to Done, Failed or Waiting, Waiting back to Executing
or NeedsInfo). -/
def specEdge : TaskState → TaskState → Bool
  | .draft, .needs_info => true
  | .draft, .planned => true
  | .needs_info, .planned => true
  | .planned, .ready => true
  | .ready, .executing => true
  | .executing, .done => true
  | .executing, .failed => true
  | .executing, .waiting => true
  | .waiting, .executing => true
  | .waiting, .needs_info => true
  | _, _ => false

/-- Spec-side definition for the keyword clause of risk classification: the
highest severity level among the matched keyword categories, `safe` when no
keyword matches. -/
def keywordHighest (ml : Str) : RiskLevel :=
  if riskKeywordsHigh.any (fun k => containsSub k ml) then .high
  else if riskKeywordsMedium.any (fun k => containsSub k ml) then .medium
  else if riskKeywordsLow.any (fun k => containsSub k ml) then .low
  else .safe

/-- Discriminates the success case of an `Except`. -/
def isOkE {ε α : Type} : Except ε α → Bool
  | .ok _ => true
  | .error _ => false

/-! ## Concrete fixtures used by witnesses and counterexamples -/

/-- Sample agent for the transition-table claims. -/
def sampleBron : BronInstance := ⟨1, "B".toList, .working, some 10⟩

/-- Sample task (state `planned`) for the transition-table claims. -/
def sampleTask : Task := ⟨10, "T".toList, none, .planned, .other, 0, none, none, 1⟩

/-- An already-submitted recipe, owned by message 100 and task 10. -/
def c2Recipe : UIRecipe :=
  { id := 50, component_type := "form".toList, title := some "Dates".toList,
    submitted_data := some [("dates".toList, "June 1".toList)],
    is_submitted := true, task_id := some 10, message_id := some 100 }

/-- A consistent store around `c2Recipe`. -/
def c2State : OrchState :=
  { brons := [⟨1, "B".toList, .idle, some 10⟩]
    tasks := [⟨10, "T".toList, none, .needs_info, .other, 0, none, none, 1⟩]
    messages := [⟨100, 1, .assistant, "m".toList, none⟩]
    recipes := [c2Recipe] }

/-- An invalid (revoked) gmail credential, the most recently updated row. -/
def c5Invalid : Credential :=
  { id := 1, provider := .gmail, credential_type := .oauth_token,
    bron_id := 7, updated_at := 500, is_valid := false }

/-- A valid gmail credential. -/
def c5Valid : Credential :=
  { id := 2, provider := .gmail, credential_type := .oauth_token,
    bron_id := 7, updated_at := 100, is_valid := true }

/-! ## Helper lemmas -/

/-- The risk component of one keyword pass is the level when some keyword of
the pass matches and the level beats the accumulator, else the accumulator. -/
theorem scanLevel_fst (ml : Str) (lvl : RiskLevel) (kws : List Str)
    (acc : RiskLevel × List Str) :
    (scanLevel ml lvl kws acc).1 =
      if (kws.any fun k => containsSub k ml) && decide (riskValue lvl > riskValue acc.1)
      then lvl else acc.1 := by
  induction kws generalizing acc with
  | nil => simp [scanLevel]
  | cons k ks ih =>
    show (scanLevel ml lvl ks (scanStep ml lvl acc k)).1 = _
    rw [ih]
    by_cases hk : containsSub k ml
    · by_cases hv : riskValue lvl > riskValue acc.1
      · simp [scanStep, hk, hv, List.any_cons]
      · simp [scanStep, hk, hv, List.any_cons]
    · simp [scanStep, hk, List.any_cons]

/-- Unrolling equation for one pass of the retry loop. -/
theorem retryGo_succ {α : Type} (call : Nat → Except Str α) (le : Option Str)
    (a : Nat) (d : ℚ) (s : List ℚ) (n : Nat) :
    retryGo call le a d s (n + 1) =
      (match call a with
       | .ok v => (.ok v, s)
       | .error e =>
         if is_transient_error e && decide (0 < n) then
           retryGo call (some e) (a + 1) (d * 2) (s ++ [d]) n
         else (.error e, s)) := rfl

/-- Inserting into the descending-sorted credential list adds one element. -/
theorem insertByUpdatedDesc_length (c : Credential) (l : List Credential) :
    (insertByUpdatedDesc c l).length = l.length + 1 := by
  induction l with
  | nil => rfl
  | cons d ds ih =>
    by_cases h : d.updated_at < c.updated_at <;> simp [insertByUpdatedDesc, h, ih]

/-- The `ORDER BY` sort preserves the number of rows. -/
theorem sortByUpdatedDesc_length (l : List Credential) :
    (sortByUpdatedDesc l).length = l.length := by
  induction l with
  | nil => rfl
  | cons c cs ih => simp [sortByUpdatedDesc, insertByUpdatedDesc_length, ih]

/-- The three keyword passes of `analyze_message` compute exactly the
spec-side highest matched severity. -/
theorem scanPasses_eq_keywordHighest (ml : Str) :
    (scanLevel ml .low riskKeywordsLow
      (scanLevel ml .medium riskKeywordsMedium
        (scanLevel ml .high riskKeywordsHigh (.safe, [])))).1 = keywordHighest ml := by
  rw [scanLevel_fst, scanLevel_fst, scanLevel_fst]
  by_cases hH : riskKeywordsHigh.any fun k => containsSub k ml
  · by_cases hM : riskKeywordsMedium.any fun k => containsSub k ml <;>
    by_cases hL : riskKeywordsLow.any fun k => containsSub k ml <;>
      simp [hH, hM, hL, keywordHighest, riskValue]
  · by_cases hM : riskKeywordsMedium.any fun k => containsSub k ml <;>
    by_cases hL : riskKeywordsLow.any fun k => containsSub k ml <;>
      simp [hH, hM, hL, keywordHighest, riskValue]

/-! ## Claim theorems -/

/-- C1: the claim asserts that an execute-intent reply whose text matches
dangerous keywords and that carries no approval-style UI Recipe is overridden
(forced approval recipe, intent downgraded, message rewritten) before being
persisted.  Evaluating the response handler at the scenario-3 input shows the
code performs no override at all: the text classifies as `high` risk, yet the
reply is persisted verbatim with the execute transition applied (agent
`ready`, task `ready`) and no UI Recipe. -/
theorem C1_no_guardrail_override :
    (analyze_message "I will delete your draft and send the email".toList).1 = .high ∧
    handle_agent_response ⟨1, "Bron".toList, .working, some 10⟩
        (some ⟨10, "Email".toList, none, .planned, .other, 0, none, none, 1⟩)
        { intent := .execute, message := "I will delete your draft and send the email".toList } =
      { bronStatus := .ready
        task := some ⟨10, "Email".toList, none, .ready, .other, 0, none, none, 1⟩
        assistantContent := "I will delete your draft and send the email".toList
        taskStateUpdateField := some "ready".toList
        createdRecipe := none } :=
  ⟨by decide, rfl⟩

/-- C8 counterexample: the claim asserts every assistant text passes through
`sanitize_output` before being persisted; the handler persists a text that
contains an inline password verbatim, although sanitizing it would change it. -/
theorem C8_counterexample :
    sanitize_output "password: hunter2".toList ≠ "password: hunter2".toList ∧
    (handle_agent_response ⟨1, "Bron".toList, .idle, none⟩ none
        { intent := .respond, message := "password: hunter2".toList }).assistantContent =
      "password: hunter2".toList :=
  ⟨by decide, rfl⟩

/-- C8 amended: `sanitize_output` does replace sensitive-data matches with the
redaction marker, but assistant texts are persisted verbatim — the persisted
content of every turn is exactly `response.message`, with no redaction
applied on the persistence path. -/
theorem C8_sanitize_defined_but_not_applied :
    sanitize_output "password: hunter2".toList = "[REDACTED]".toList ∧
    ∀ (b : BronInstance) (t : Option Task) (r : AgentResponse),
      (handle_agent_response b t r).assistantContent = r.message :=
  ⟨by decide, fun _ _ _ => rfl⟩

/-- C9 counterexample: the input `123-45-6789` contains no hard-blocked
pattern and matches no risk keyword (spec-side highest severity is `safe`),
yet classification returns `blocked`, because sensitive-data patterns also
short-circuit to `blocked`. -/
theorem C9_counterexample :
    blockedActionMatch (lowerStr "123-45-6789".toList) = false ∧
    keywordHighest (lowerStr "123-45-6789".toList) = .safe ∧
    (analyze_message "123-45-6789".toList).1 = .blocked :=
  ⟨by decide, by decide, by decide⟩

/-- C9 amended: classification returns `blocked` for every input containing a
hard-blocked pattern; for every input with no hard-blocked pattern AND no
sensitive-data match, it returns the highest severity among the matched
keyword categories (`safe` when none matches). -/
theorem C9_risk_classification :
    (∀ msg : Str, blockedActionMatch (lowerStr msg) = true →
      (analyze_message msg).1 = .blocked) ∧
    (∀ msg : Str, blockedActionMatch (lowerStr msg) = false → sensitiveMatch msg = false →
      (analyze_message msg).1 = keywordHighest (lowerStr msg)) := by
  constructor
  · intro msg h
    simp [analyze_message, h]
  · intro msg h1 h2
    simp [analyze_message, h1, h2, scanPasses_eq_keywordHighest]

/-- C9 witness: both parts of the amended classification theorem applied at
concrete inputs. -/
theorem C9_witness :
    (analyze_message "please delete all my files".toList).1 = .blocked ∧
    (analyze_message "schedule a meeting".toList).1 =
      keywordHighest (lowerStr "schedule a meeting".toList) :=
  ⟨C9_risk_classification.1 _ (by decide), C9_risk_classification.2 _ (by decide) (by decide)⟩

/-- C10: every input with a sensitive-data match classifies as `blocked`,
whatever else it contains — both the hard-block branch and the sensitive-data
branch of `analyze_message` return `blocked`. -/
theorem C10_sensitive_data_blocked (msg : Str) (h : sensitiveMatch msg = true) :
    (analyze_message msg).1 = .blocked := by
  by_cases hb : blockedActionMatch (lowerStr msg) <;> simp [analyze_message, hb, h]

/-- C10 witness: a bare card number with no keywords classifies as `blocked`. -/
theorem C10_witness :
    sensitiveMatch "1234567890123456".toList = true ∧
    (analyze_message "1234567890123456".toList).1 = .blocked :=
  ⟨by decide, C10_sensitive_data_blocked _ (by decide)⟩

/-- C2 counterexample: calling the orchestrator method
`handle_ui_recipe_submission` on an already-submitted recipe does not fail —
it succeeds and overwrites `submitted_data` (June 1 becomes June 2). -/
theorem C2_counterexample :
    isOkE (handle_ui_recipe_submission c2State 50 [("dates".toList, "June 2".toList)]
        { intent := .respond, message := "ok".toList } 101 51).1 = true ∧
    (((handle_ui_recipe_submission c2State 50 [("dates".toList, "June 2".toList)]
        { intent := .respond, message := "ok".toList } 101 51).2.recipes.find?
          fun r => r.id == 50).map fun r => (r.is_submitted, r.submitted_data)) =
      some (true, some [("dates".toList, "June 2".toList)]) ∧
    some [("dates".toList, "June 2".toList)] ≠ c2Recipe.submitted_data :=
  ⟨by decide, by decide, by decide⟩

/-- C2 amended: the already-submitted check lives in the HTTP endpoint, not in
the orchestrator method: `submit_ui_recipe` rejects an already-submitted
recipe with a 400 error before any orchestrator call, and the raised
`HTTPException` rolls the session back, so the store — in particular
`submitted_data` — is unchanged. -/
theorem C2_endpoint_rejects_resubmission (st : OrchState) (rid : Nat)
    (data : List (Str × Str)) (oracle : AgentResponse) (m n f : Nat) (r : UIRecipe)
    (hfind : findRecipe st rid = some r) (hsub : r.is_submitted = true) :
    submit_ui_recipe st rid data oracle m n f = (.error .alreadySubmitted, st) := by
  unfold submit_ui_recipe
  rw [hfind]
  simp [hsub]

/-- C2 witness: the endpoint theorem applied to the concrete store. -/
theorem C2_witness :
    submit_ui_recipe c2State 50 [("dates".toList, "June 2".toList)]
        { intent := .respond, message := "ok".toList } 101 51 200 =
      (.error .alreadySubmitted, c2State) :=
  C2_endpoint_rejects_resubmission c2State 50 _ _ 101 51 200 c2Recipe rfl rfl

/-- C3: with a current Task, the explicit task-state delta is applied first
(`applyTaskUpdate`), and the intent mapping then acts on its result: respond
changes nothing, request_info sets needs_info (waiting_on from the recipe
title when present and truthy), execute sets ready/ready, complete sets
idle/done with progress 1, error keeps the agent status and fails the task. -/
theorem C3_intent_transition_table (b : BronInstance) (t : Task) (r : AgentResponse) :
    (r.intent = .respond →
      (handle_agent_response b (some t) r).bronStatus = b.status ∧
      (handle_agent_response b (some t) r).task = some (applyTaskUpdate t r.task_update)) ∧
    (r.intent = .request_info →
      (handle_agent_response b (some t) r).bronStatus = .needs_info ∧
      (r.ui_recipe = none →
        (handle_agent_response b (some t) r).task =
          some { applyTaskUpdate t r.task_update with state := .needs_info }) ∧
      (∀ spec, r.ui_recipe = some spec → truthyStr spec.title = false →
        (handle_agent_response b (some t) r).task =
          some { applyTaskUpdate t r.task_update with state := .needs_info }) ∧
      (∀ spec, r.ui_recipe = some spec → truthyStr spec.title = true →
        (handle_agent_response b (some t) r).task =
          some { applyTaskUpdate t r.task_update with
                 state := .needs_info
                 waiting_on := spec.title })) ∧
    (r.intent = .execute →
      (handle_agent_response b (some t) r).bronStatus = .ready ∧
      (handle_agent_response b (some t) r).task =
        some { applyTaskUpdate t r.task_update with state := .ready }) ∧
    (r.intent = .complete →
      (handle_agent_response b (some t) r).bronStatus = .idle ∧
      (handle_agent_response b (some t) r).task =
        some { applyTaskUpdate t r.task_update with
               state := .done
               progress := 1 }) ∧
    (r.intent = .error →
      (handle_agent_response b (some t) r).bronStatus = b.status ∧
      (handle_agent_response b (some t) r).task =
        some { applyTaskUpdate t r.task_update with state := .failed }) := by
  refine ⟨?_, ?_, ?_, ?_, ?_⟩
  · intro h
    constructor <;> simp [handle_agent_response, h]
  · intro h
    refine ⟨by simp [handle_agent_response, h], ?_, ?_, ?_⟩
    · intro hn
      simp [handle_agent_response, h, hn]
    · intro spec hs ht
      simp [handle_agent_response, h, hs, ht]
    · intro spec hs ht
      simp [handle_agent_response, h, hs, ht]
  · intro h
    constructor <;> simp [handle_agent_response, h]
  · intro h
    constructor <;> simp [handle_agent_response, h]
  · intro h
    constructor <;> simp [handle_agent_response, h]

/-- C3 witness: the transition-table theorem applied at each intent on a
concrete agent, task and reply. -/
theorem C3_witness :
    ((handle_agent_response sampleBron (some sampleTask)
        { intent := .respond, message := "m".toList }).bronStatus = sampleBron.status) ∧
    ((handle_agent_response sampleBron (some sampleTask)
        { intent := .request_info, message := "m".toList,
          ui_recipe := some { component_type := "form".toList,
                              title := some "Trip Dates".toList } }).task =
      some { applyTaskUpdate sampleTask none with
             state := .needs_info
             waiting_on := some "Trip Dates".toList }) ∧
    ((handle_agent_response sampleBron (some sampleTask)
        { intent := .execute, message := "m".toList }).bronStatus = .ready) ∧
    ((handle_agent_response sampleBron (some sampleTask)
        { intent := .complete, message := "m".toList }).task =
      some { applyTaskUpdate sampleTask none with
             state := .done
             progress := 1 }) ∧
    ((handle_agent_response sampleBron (some sampleTask)
        { intent := .error, message := "m".toList }).bronStatus = sampleBron.status) := by
  refine ⟨?_, ?_, ?_, ?_, ?_⟩
  · exact ((C3_intent_transition_table sampleBron sampleTask _).1 rfl).1
  · exact (((C3_intent_transition_table sampleBron sampleTask _).2.1 rfl).2.2.2
      { component_type := "form".toList, title := some "Trip Dates".toList } rfl (by decide))
  · exact ((C3_intent_transition_table sampleBron sampleTask _).2.2.1 rfl).1
  · exact ((C3_intent_transition_table sampleBron sampleTask _).2.2.2.1 rfl).2
  · exact ((C3_intent_transition_table sampleBron sampleTask _).2.2.2.2 rfl).1

/-- C4 counterexample: the response handler applies the intent transition
without consulting the current state — a complete-intent reply moves a task
from `draft` directly to `done`, which is not an edge of the §4.1 state
machine. -/
theorem C4_counterexample :
    specEdge .draft .done = false ∧
    (handle_agent_response ⟨1, "B".toList, .working, some 11⟩
        (some ⟨11, "T".toList, none, .draft, .other, 0, none, none, 1⟩)
        { intent := .complete, message := "done".toList }).task =
      some ⟨11, "T".toList, none, .done, .other, 1, none, none, 1⟩ :=
  ⟨by decide, rfl⟩

/-- C4 amended: `create_task_from_message` does respect the state machine —
the new task is created in `draft` and ends in `needs_info` exactly when the
reply carries a UI Recipe, otherwise in `planned`; both are §4.1 edges from
`draft`.  The response handler, by contrast, applies the intent mapping
regardless of the current state (see the counterexample). -/
theorem C4_create_task_respects_edges (b : BronInstance) (content : Str)
    (r : AgentResponse) (tid mid : Nat) :
    (create_task_from_message b content r tid mid).task.state =
      (if r.ui_recipe.isSome then TaskState.needs_info else TaskState.planned) ∧
    specEdge .draft (create_task_from_message b content r tid mid).task.state = true := by
  cases hr : r.ui_recipe with
  | none => constructor <;> simp [create_task_from_message, hr, specEdge]
  | some spec =>
    by_cases ht : truthyStr spec.title <;>
      (constructor <;> simp [create_task_from_message, hr, ht, specEdge])

/-- C5: the executor raises `AuthenticationError` without attempting the HTTP
call whenever the agent has no valid credential for the provider (invalid
rows are filtered out by the query, however recent they are), and a 401 reply
marks the selected credential invalid and raises `AuthenticationError`. -/
theorem C5_executor_authentication :
    (∀ (db : List Credential) (now : Int) (bronId : Nat) (req : APIRequest)
        (http : HttpOutcome),
      (∀ c ∈ db, c.bron_id = bronId → c.provider = req.provider → c.is_valid = false) →
      execute db now bronId req http =
        { result := .error .authentication, db := db, httpAttempted := false }) ∧
    (∀ (db : List Credential) (now : Int) (bronId : Nat) (req : APIRequest) (body : Str)
        (c : Credential),
      get_credential db bronId req.provider = .ok (some c) →
      knownApiProvider req.provider = true →
      execute db now bronId req (.statusError 401 body) =
        { result := .error .authentication, db := dbSetInvalid db c.id,
          httpAttempted := true }) := by
  constructor
  · intro db now bronId req http h
    have hf : validCredsFor db bronId req.provider = [] := by
      unfold validCredsFor
      rw [List.filter_eq_nil_iff]
      intro c hc
      by_cases h1 : c.bron_id = bronId
      · by_cases h2 : c.provider = req.provider
        · simp [h1, h2, h c hc h1 h2]
        · simp [h2]
      · simp [h1]
    have hg : get_credential db bronId req.provider = .ok none := by
      unfold get_credential
      rw [hf]
      rfl
    unfold execute
    rw [hg]
  · intro db now bronId req body c hg hk
    unfold execute
    rw [hg]
    simp [hk, refresh_token_step]

/-- C5 witness: both parts applied on concrete credential tables — a recent
but invalid row is never selected, and a 401 flips `is_valid` of the row that
was used. -/
theorem C5_witness :
    execute [c5Invalid] 0 7 { provider := .gmail, endpoint := "/m".toList }
        (.success 200 "ok".toList) =
      { result := .error .authentication, db := [c5Invalid], httpAttempted := false } ∧
    execute [c5Valid] 0 7 { provider := .gmail, endpoint := "/m".toList }
        (.statusError 401 "no".toList) =
      { result := .error .authentication, db := dbSetInvalid [c5Valid] c5Valid.id,
        httpAttempted := true } := by
  constructor
  · exact C5_executor_authentication.1 [c5Invalid] 0 7 _ _
      (by intro c hc _ _; rw [List.mem_singleton] at hc; rw [hc]; rfl)
  · exact C5_executor_authentication.2 [c5Valid] 0 7 _ _ c5Valid (by rfl) (by rfl)

/-- C6 counterexample: storing an API-key credential twice for the same
(agent, provider) leaves two rows — the store functions always insert and
never update — and credential resolution over the two valid rows raises
`MultipleResultsFound` instead of returning the most recently updated one. -/
theorem C6_counterexample :
    (validCredsFor (store_api_key_credential
        (store_api_key_credential [] 100 1 7 .stripe "k1".toList).1
        200 2 7 .stripe "k2".toList).1 7 .stripe).length = 2 ∧
    get_credential (store_api_key_credential
        (store_api_key_credential [] 100 1 7 .stripe "k1".toList).1
        200 2 7 .stripe "k2".toList).1 7 .stripe = .error .multipleResultsFound :=
  ⟨rfl, rfl⟩

/-- C6 amended: both store functions always append a fresh credential row
(insert, never update); resolution returns the single valid row when exactly
one exists, and fails with `MultipleResultsFound` when two or more valid rows
exist for (agent, provider). -/
theorem C6_store_and_resolution :
    (∀ (db : List Credential) (now : Int) (newId bronId : Nat)
        (provider : ServiceProvider) (apiKey : Str),
      (store_api_key_credential db now newId bronId provider apiKey).1 =
        db ++ [(store_api_key_credential db now newId bronId provider apiKey).2]) ∧
    (∀ (db : List Credential) (now : Int) (newId bronId : Nat)
        (provider : ServiceProvider) (accessToken : Str) (rt : Option Str)
        (ei : Option Int) (sc : Option (List Str)),
      (store_oauth_credential db now newId bronId provider accessToken rt ei sc).1 =
        db ++ [(store_oauth_credential db now newId bronId provider accessToken rt ei sc).2]) ∧
    (∀ (db : List Credential) (bronId : Nat) (provider : ServiceProvider) (c : Credential),
      validCredsFor db bronId provider = [c] →
      get_credential db bronId provider = .ok (some c)) ∧
    (∀ (db : List Credential) (bronId : Nat) (provider : ServiceProvider),
      2 ≤ (validCredsFor db bronId provider).length →
      get_credential db bronId provider = .error .multipleResultsFound) := by
  refine ⟨fun _ _ _ _ _ _ => rfl, fun _ _ _ _ _ _ _ _ _ => rfl, ?_, ?_⟩
  · intro db bronId provider c h
    unfold get_credential
    rw [h]
    rfl
  · intro db bronId provider h
    have hl : 2 ≤ (sortByUpdatedDesc (validCredsFor db bronId provider)).length := by
      rw [sortByUpdatedDesc_length]
      exact h
    unfold get_credential
    rcases hs : sortByUpdatedDesc (validCredsFor db bronId provider) with _ | ⟨a, _ | ⟨b, t⟩⟩
    · rw [hs] at hl
      simp at hl
    · rw [hs] at hl
      simp at hl
    · rfl

/-- C6 witness: the amended statement applied on concrete tables, including a
singleton valid row resolved among a historical invalid one. -/
theorem C6_witness :
    (store_api_key_credential [] 100 1 7 .stripe "k1".toList).1 =
      [] ++ [(store_api_key_credential [] 100 1 7 .stripe "k1".toList).2] ∧
    get_credential [c5Invalid, c5Valid] 7 .gmail = .ok (some c5Valid) ∧
    get_credential [c5Valid, { c5Valid with id := 3, updated_at := 900 }] 7 .gmail =
      .error .multipleResultsFound := by
  refine ⟨C6_store_and_resolution.1 [] 100 1 7 .stripe "k1".toList, ?_, ?_⟩
  · exact C6_store_and_resolution.2.2.1 [c5Invalid, c5Valid] 7 .gmail c5Valid (by rfl)
  · exact C6_store_and_resolution.2.2.2
      [c5Valid, { c5Valid with id := 3, updated_at := 900 }] 7 .gmail (by decide)

/-- C7 counterexample: a rate-limit failure (HTTP 429 class) is not transient
for the retry test, so the stateless fallback raises immediately with no
retry and no backoff sleep, contradicting the claimed retry coverage of the
rate-limit status class. -/
theorem C7_counterexample :
    is_transient_error "Error code: 429 rate_limit_error".toList = false ∧
    direct_api_retry
        (fun _ => (Except.error "Error code: 429 rate_limit_error".toList : Except Str Nat)) =
      (.error "Error code: 429 rate_limit_error".toList, ([] : List ℚ)) :=
  ⟨by decide, rfl⟩

/-- C7 amended: the loop makes at most 3 attempts — that is, at most 2 retries
after the initial call — with backoff sleeps of 1 s then 2 s, and it retries
only errors whose text contains 529, "overloaded" or 500 (the overload and
server-error classes); every other failure, including rate-limit (429), bad
request and auth errors, is raised without any retry. -/
theorem C7_retry_policy :
    (∀ {α : Type} (call : Nat → Except Str α) (v : α),
      call 0 = .ok v → direct_api_retry call = (.ok v, [])) ∧
    (∀ {α : Type} (call : Nat → Except Str α) (e : Str),
      call 0 = .error e → is_transient_error e = false →
      direct_api_retry call = (.error e, [])) ∧
    (∀ {α : Type} (call : Nat → Except Str α) (e0 e1 e2 : Str),
      call 0 = .error e0 → call 1 = .error e1 → call 2 = .error e2 →
      is_transient_error e0 = true → is_transient_error e1 = true →
      direct_api_retry call = (.error e2, [1, 2])) := by
  refine ⟨?_, ?_, ?_⟩
  · intro α call v h
    unfold direct_api_retry max_retries
    rw [retryGo_succ, h]
  · intro α call e h ht
    unfold direct_api_retry max_retries
    rw [retryGo_succ, h]
    simp [ht]
  · intro α call e0 e1 e2 h0 h1 h2 t0 t1
    unfold direct_api_retry max_retries
    rw [retryGo_succ, h0]
    simp only [t0, Bool.true_and, decide_eq_true_eq]
    rw [if_pos (by omega)]
    rw [retryGo_succ, h1]
    simp only [t1, Bool.true_and, decide_eq_true_eq]
    rw [if_pos (by omega)]
    rw [retryGo_succ, h2]
    norm_num

/-- C7 witness: the three retry behaviors exercised on concrete call oracles. -/
theorem C7_witness :
    direct_api_retry (fun _ => (Except.ok 5 : Except Str Nat)) = (.ok 5, []) ∧
    direct_api_retry
        (fun _ => (Except.error "Error code: 400 bad_request".toList : Except Str Nat)) =
      (.error "Error code: 400 bad_request".toList, []) ∧
    direct_api_retry
        (fun _ => (Except.error "529 overloaded".toList : Except Str Nat)) =
      (.error "529 overloaded".toList, [1, 2]) := by
  refine ⟨?_, ?_, ?_⟩
  · exact C7_retry_policy.1 _ 5 rfl
  · exact C7_retry_policy.2.1 _ _ rfl (by decide)
  · exact C7_retry_policy.2.2 _ _ _ _ rfl rfl rfl (by decide) (by decide)

end Bron
